import Mathlib

/-!
A shallow embedding of the caching, normalization, aggregation and prediction
logic of the data-platform application (`src/5.py`) and of its offline model
training script (`src/train_models.py`).

Pure Lean definitions mirror the pandas/filesystem operations the source
performs; the theorems below check the specification's claims against them.
Tables are lists of rows, missing values are explicit (`Option` / a dedicated
`na` cell), machine reals used by the source for count ratios are modelled
with `ℚ`, and dates are modelled at the granularity each component uses
(integer day numbers for the prediction/training arithmetic, a
month-index/day-of-month pair for the month-bucketing aggregation).
-/

/-- A cell of a raw table column: either a missing value (pandas
`NaN`/`None`/`NaT`) or a concrete string value.  `astype(str)` renders a
missing value as a string such as `"nan"`; the model uses that single
rendering for its one `na` constructor. -/
inductive Cell
  | na
  | s (v : String)
deriving DecidableEq, Repr

/-- `astype(str)` on one cell. -/
def cellStr : Cell → String
  | .na => "nan"
  | .s v => v

/-- `pd.isna` on one cell. -/
def Cell.isNa : Cell → Bool
  | .na => true
  | .s _ => false

/-- Result of normalizing one raw object-typed column
(`src/5.py` lines 342-349 and the identical lines 419-426): either the
column replaced wholesale by the element-wise parsed dates, or the column
left textual with every string value stripped. -/
inductive NormalizedCol (α D : Type)
  | dates (vals : List (Option D))
  | text (vals : List α)
deriving DecidableEq

/-- One iteration of the normalizer's per-column loop.  `parse` models
`pd.to_datetime(_, errors='coerce')` applied element-wise: a missing or
unparseable cell yields `none`.  `strip` models
`x.strip() if isinstance(x, str) else x`.  The source's condition is
`not converted_col.isnull().all() and
(converted_col.notna().sum() / len(df_to_process) > 0.5)`, where the
denominator is the total number of rows of the frame (= the column length). -/
def normalize_column {α D : Type} (parse : α → Option D) (strip : α → α)
    (col : List α) : NormalizedCol α D :=
  if ((col.map parse).any fun o => o.isSome) = true ∧
      ((((col.map parse).countP fun o => o.isSome : ℕ) : ℚ) /
          ((col.length : ℕ) : ℚ) > 1 / 2) then
    .dates (col.map parse)
  else
    .text (col.map strip)

/-- A persisted cache file, named `select_<name>_<mtime>.parquet` for a
"selected" source and `upload_<name>_<hash16>.parquet` for an uploaded one
(`src/5.py` lines 326-330 and 409-413). -/
inductive CKey
  | select (name : String) (mtime : Nat)
  | upload (name : String) (hash : String)
deriving DecidableEq, Repr

/-- Result of one cache interaction: the resulting set of cache files,
whether the raw loader (`read_file`) ran, and whether a cache entry was
written (`to_parquet`). -/
structure FlowResult where
  cache : List CKey
  loaderInvoked : Bool
  wrote : Bool
deriving DecidableEq, Repr

/-- The stale-entry sweep
`for old_cache in glob.glob(f"select_{s_filename}_*.parquet"): os.remove(...)`
(`src/5.py` lines 336-338): removes every selected-source entry for the same
sanitized filename, any mtime; upload entries are untouched. -/
def sweepSelect (cache : List CKey) (name : String) : List CKey :=
  cache.filter fun k =>
    match k with
    | .select n _ => n != name
    | .upload _ _ => true

/-- The "selected dataset" branch of `handle_file_selection_or_upload`
(`src/5.py` lines 321-363).  On a hit (the key's cache file exists) it
returns at once; on a miss it first sweeps stale entries for the filename,
then invokes the loader, and writes the normalized table only when the
loader succeeded (`read_file` returning `None` is `loadOk = false`).
The upload trigger of the same callback performs no cache work (it only
opens the save-confirmation modal), so it is not part of this model. -/
def handle_file_selection_or_upload (cache : List CKey) (name : String)
    (mtime : Nat) (loadOk : Bool) : FlowResult :=
  if CKey.select name mtime ∈ cache then
    ⟨cache, false, false⟩
  else
    let swept := sweepSelect cache name
    if loadOk then ⟨swept ++ [CKey.select name mtime], true, true⟩
    else ⟨swept, true, false⟩

/-- `handle_save_file_confirmation` (`src/5.py` lines 385-438): the uploaded
content is always decoded, read and normalized again, and the cache entry at
the content-hash key is (re)written whenever the loader succeeds — there is
no existence check on the cache file for uploads.  Rewriting an existing
file is modelled as replacing the key. -/
def handle_save_file_confirmation (cache : List CKey) (name hash : String)
    (loadOk : Bool) : FlowResult :=
  let key := CKey.upload name hash
  if loadOk then ⟨(cache.filter fun k => k != key) ++ [key], true, true⟩
  else ⟨cache, true, false⟩

/-- A calendar date at the granularity month bucketing needs: `ym` is an
absolute month index (e.g. year*12 + month) and `day` the 1-based day of the
month.  Timestamps compare lexicographically on `(ym, day)`. -/
structure SDate where
  ym : Nat
  day : Nat
deriving DecidableEq, Repr

/-- Timestamp order on dates. -/
def sdateLeB (a b : SDate) : Bool :=
  decide (a.ym < b.ym) || (decide (a.ym = b.ym) && decide (a.day ≤ b.day))

/-- `pd.date_range(start=min_date, end=max_date, freq='MS').to_period('M')`
(`src/5.py` lines 905-906 and 931-932): the `MS` frequency emits exactly the
month-start timestamps lying inside the closed interval `[dmin, dmax]`, and
each is then rendered as its month.  A month `m` therefore appears iff the
date `(m, day 1)` is between `dmin` and `dmax`. -/
def monthRangeMS (dmin dmax : SDate) : List Nat :=
  (List.range (dmax.ym + 1)).filter fun m =>
    sdateLeB dmin ⟨m, 1⟩ && sdateLeB ⟨m, 1⟩ dmax

/-- Distinct values of a list in order of first appearance (the key set of a
pandas hash-based grouping). -/
def firstOccs {α : Type} [DecidableEq α] : List α → List α
  | [] => []
  | a :: t => a :: (firstOccs t).filter fun b => b != a

/-- The counting step shared by `value_counts` and `groupby(...).size()`:
every distinct value paired with its number of occurrences, keys in
first-appearance order (where the source then sorts, the callers below do). -/
def groupCounts {α : Type} [DecidableEq α] (l : List α) : List (α × Nat) :=
  (firstOccs l).map fun a => (a, l.count a)

/-- Insert into a sorted list, before the first element it is `leb`-below. -/
def insertIntoSorted {α : Type} (leb : α → α → Bool) (a : α) : List α → List α
  | [] => [a]
  | b :: t => if leb a b then a :: b :: t else b :: insertIntoSorted leb a t

/-- Stable insertion sort, modelling `sort_values`. -/
def insertionSortBy {α : Type} (leb : α → α → Bool) : List α → List α
  | [] => []
  | a :: t => insertIntoSorted leb a (insertionSortBy leb t)

/-- Sum of the `Count` column of a counts table. -/
def sumCounts {α : Type} (l : List (α × Nat)) : Nat :=
  (l.map fun q => q.2).sum

/-- Total count a counts table records for the value `v`. -/
def vcCount {α : Type} [DecidableEq α] (l : List (α × Nat)) (v : α) : Nat :=
  ((l.filter fun q => q.1 == v).map fun q => q.2).sum

/-- Sort direction of the `sort-mode-select` dropdown (`None`/`asc`/`desc`). -/
inductive SortMode
  | noSort
  | asc
  | desc
deriving DecidableEq, Repr

/-- `df_plot[x] = df_plot[x].astype(str)` followed by the optional
`isin([str(val) for val in x_filter])` row filter of the 1D branch
(`src/5.py` lines 983-985); note no `dropna` happens here. -/
def filteredStrs (col : List Cell) (xf : Option (List String)) : List String :=
  let strs := col.map cellStr
  match xf with
  | none => strs
  | some f => strs.filter fun v => decide (v ∈ f)

/-- `Series.value_counts()`: occurrence counts sorted by count descending
(ties kept in first-appearance order). -/
def pandasValueCounts (l : List String) : List (String × Nat) :=
  insertionSortBy (fun a b => decide (b.2 ≤ a.2)) (groupCounts l)

/-- Outcome of the 1D branch: the explicit no-data alert, or a chart table
(with a `Percentage` column in percentage count mode). -/
inductive Outcome1D
  | noData
  | chartCount (rows : List (String × Nat))
  | chartPct (rows : List (String × Nat × ℚ))
deriving DecidableEq, Repr

/-- The 1D counts table after the optional sort and the `head(top_n)`
truncation, `src/5.py` lines 988-992. -/
def oneDTable (col : List Cell) (xf : Option (List String)) (sm : SortMode)
    (tn : Option Nat) : List (String × Nat) :=
  let vc := pandasValueCounts (filteredStrs col xf)
  let vc1 :=
    match sm with
    | .noSort => vc
    | .asc => insertionSortBy (fun a b => decide (a.2 ≤ b.2)) vc
    | .desc => insertionSortBy (fun a b => decide (b.2 ≤ a.2)) vc
  match tn with
  | none => vc1
  | some n => vc1.take n

/-- The 1D branch of `generate_graph` (`src/5.py` lines 981-1005).  In
percentage mode the total is `value_counts['Count'].sum()` taken *after*
`head(top_n)`, and a zero total is guarded to `0`. -/
def generate_graph_1d (col : List Cell) (xf : Option (List String))
    (sm : SortMode) (tn : Option Nat) (percentage : Bool) : Outcome1D :=
  if filteredStrs col xf = [] then .noData
  else if percentage then
    .chartPct ((oneDTable col xf sm tn).map fun q =>
      (q.1, q.2,
        if 0 < sumCounts (oneDTable col xf sm tn)
        then ((q.2 : ℕ) : ℚ) / ((sumCounts (oneDTable col xf sm tn) : ℕ) : ℚ) * 100
        else 0))
  else .chartCount (oneDTable col xf sm tn)

/-- `Percentage` total of a 1D percentage chart: the sum of its (retained)
counts. -/
def pctTotal (rows : List (String × Nat × ℚ)) : Nat :=
  (rows.map fun r => r.2.1).sum

/-- `df.dropna(subset=[x, y])` for a date-typed X column and a second
column Y (`src/5.py` line 922), keeping the surviving (date, y) pairs. -/
def dropna2 (rows : List (Option SDate × Cell)) : List (SDate × Cell) :=
  rows.filterMap fun r =>
    match r with
    | (some d, c) => if c.isNa then none else some (d, c)
    | (none, _) => none

/-- Outcome of the 2D normal branch: no-data alert, or the grouped chart
table together with the category order forced on the X axis
(month labels are the `ym` month indices). -/
inductive Outcome2D
  | noData
  | chartStacked (rows : List ((Nat × String) × Nat)) (order : List Nat)
  | chartPlain (rows : List (Nat × Nat)) (order : List Nat)
deriving DecidableEq, Repr

/-- Minimum under a boolean order, seeded with a first element. -/
def listMinBy {α : Type} (leb : α → α → Bool) (d : α) (l : List α) : α :=
  l.foldl (fun acc x => if leb x acc then x else acc) d

/-- Maximum under a boolean order, seeded with a first element. -/
def listMaxBy {α : Type} (leb : α → α → Bool) (d : α) (l : List α) : α :=
  l.foldl (fun acc x => if leb acc x then x else acc) d

/-- The 2D "normal" branch of `generate_graph` for a date-typed X axis
(`src/5.py` lines 920-979): drop null rows, bucket X by month
(`DateGroup`), derive the `freq='MS'` month axis from the pre-filter
min/max, apply the optional X/Y value filters (the X filter compares
against the month labels), then either the stacked shape — which refilters
to the month axis and re-checks emptiness ("No data after secondary
filters") — or the plain `groupby(DateGroup).size()` shape, whose rows are
restricted to the month axis at plot time with no further emptiness check.
Group keys of the plain shape are ascending as pandas sorts them; the
stacked pair keys are modelled in first-appearance order (no claim below
depends on that order). -/
def generate_graph_2d_normal_date (rows : List (Option SDate × Cell))
    (xf : Option (List Nat)) (yf : Option (List String)) (stacked : Bool) :
    Outcome2D :=
  let dp0 := dropna2 rows
  let dates := dp0.map fun r => r.1
  let fmr : List Nat :=
    match dates with
    | [] => []
    | d :: ds => monthRangeMS (listMinBy sdateLeB d ds) (listMaxBy sdateLeB d ds)
  let labeled : List (Nat × String) := dp0.map fun r => (r.1.ym, cellStr r.2)
  let f1 : List (Nat × String) := match xf with
    | none => labeled
    | some f => labeled.filter fun p => decide (p.1 ∈ f)
  let f2 : List (Nat × String) := match yf with
    | none => f1
    | some f => f1.filter fun p => decide (p.2 ∈ f)
  if f2 = [] then .noData
  else if stacked then
    let kept := f2.filter fun p => decide (p.1 ∈ fmr)
    if kept = [] then .noData
    else .chartStacked (groupCounts kept) fmr
  else
    let vc : List (Nat × Nat) :=
      insertionSortBy (fun a b => decide (a.1 ≤ b.1))
        (groupCounts (f2.map fun p => p.1))
    .chartPlain (vc.filter fun p => decide (p.1 ∈ fmr)) fmr

/-- `df.dropna(subset=[x, y, z])` of the 3D branch (`src/5.py` line 1009). -/
def dropna3 (rows : List (Cell × Cell × Cell)) : List (Cell × Cell × Cell) :=
  rows.filter fun r => !r.1.isNa && !r.2.1.isNa && !r.2.2.isNa

/-- Outcome of the 3D branch. -/
inductive Outcome3D
  | noData
  | chartScatter (rows : List (Cell × Cell × Cell))
  | chartBubble (rows : List ((Cell × Cell × Cell) × Nat))
deriving DecidableEq, Repr

/-- The 3D branch of `generate_graph` (`src/5.py` lines 1007-1022): drop
rows with a null in any axis, apply the three optional raw-value filters,
report no-data when empty, then either the bubble shape (grouped triple
counts) or the raw filtered rows. -/
def generate_graph_3d (rows : List (Cell × Cell × Cell))
    (xf yf zf : Option (List Cell)) (bubble : Bool) : Outcome3D :=
  let dp := dropna3 rows
  let d1 := match xf with
    | none => dp
    | some f => dp.filter fun r => decide (r.1 ∈ f)
  let d2 := match yf with
    | none => d1
    | some f => d1.filter fun r => decide (r.2.1 ∈ f)
  let d3 := match zf with
    | none => d2
    | some f => d2.filter fun r => decide (r.2.2 ∈ f)
  if d3 = [] then .noData
  else if bubble then .chartBubble (groupCounts d3)
  else .chartScatter d3

/-- A table row as the prediction evaluator sees it: chassis id, part
number, and the production date as an integer day number (the source
compares production dates at calendar-date granularity). -/
structure PRow where
  chassis : String
  part : String
  prod : Int
deriving DecidableEq, Repr

/-- The loaded `failure_model.joblib` artifact: either the expected
dictionary (as an association list) or any non-dict object. -/
inductive FailureModel
  | dict (entries : List (String × Int))
  | other
deriving DecidableEq, Repr

/-- `dict.get` on the association-list model. -/
def dictGet (l : List (String × Int)) (p : String) : Option Int :=
  (l.find? fun q => q.1 == p).map fun q => q.2

/-- `failure_model.get(part_val) if isinstance(failure_model, dict) else 365`
(`src/5.py` line 660). -/
def avgTtfOf : FailureModel → String → Option Int
  | .dict l, p => dictGet l p
  | .other, _ => some 365

/-- Risk classification shown by the prediction alert. -/
inductive Risk
  | low
  | soon
  | high
deriving DecidableEq, Repr

/-- `src/5.py` lines 668-675: default Low Risk, overridden to High Risk when
`remaining_life < 0`, else to Failure Expected Soon when
`remaining_life <= 30`. -/
def classify_risk (remaining : Int) : Risk :=
  if remaining < 0 then .high
  else if remaining ≤ 30 then .soon
  else .low

/-- The part-instance filter
`df[(df[chassis_col] == chassis_val) & (df[part_col] == part_val) &
(pd.to_datetime(df[prod_date_col]).dt.date == selected.date())]`
(`src/5.py` lines 651-655). -/
def locate_instance (rows : List PRow) (chassisVal partVal : String)
    (prodDate : Int) : List PRow :=
  rows.filter fun r =>
    r.chassis == chassisVal && r.part == partVal && r.prod == prodDate

/-- Outcome of `run_prediction` (selection-completeness and model-load
failures aside, which happen before this logic). -/
inductive PredOutcome
  | notFound
  | noHistoricalData
  | prediction (avg dis remaining : Int) (risk : Risk)
deriving DecidableEq, Repr

/-- `run_prediction` (`src/5.py` lines 635-688).  `now` and `prodDate` are
integer day numbers; `days_in_service = (datetime.now() - prod).days` is
`now - prodDate`, `remaining_life = int(avg_ttf - days_in_service)`. -/
def run_prediction (rows : List PRow) (chassisVal partVal : String)
    (prodDate : Int) (model : FailureModel) (now : Int) : PredOutcome :=
  if locate_instance rows chassisVal partVal prodDate = [] then .notFound
  else
    match avgTtfOf model partVal with
    | none => .noHistoricalData
    | some a =>
      let dis := now - prodDate
      let remaining := a - dis
      .prediction a dis remaining (classify_risk remaining)

/-- A training row: part number plus optional production and repair dates
as integer day numbers (a missing date is a `NaT` after the
`errors='coerce'` conversions of `src/train_models.py` lines 25-26). -/
structure TRow where
  part : String
  prod : Option Int
  repair : Option Int
deriving DecidableEq, Repr

/-- `dropna(subset=['Production Date', 'repair date'])`, then
`TimeToFailure = (repair - prod).dt.days`, then the
`TimeToFailure >= 0` filter (`src/train_models.py` lines 27-38), keeping
(part, ttf) pairs. -/
def ttfRows (rows : List TRow) : List (String × Int) :=
  ((rows.filter fun r => r.prod.isSome && r.repair.isSome).map
      fun r => (r.part, r.repair.getD 0 - r.prod.getD 0)).filter
    fun q => decide (0 ≤ q.2)

/-- The `TimeToFailure` values grouped under part `p`. -/
def valuesFor (l : List (String × Int)) (p : String) : List Int :=
  (l.filter fun q => q.1 == p).map fun q => q.2

/-- Arithmetic mean of a list of integers, as a rational. -/
def ratMean (l : List Int) : ℚ :=
  ((l.sum : ℤ) : ℚ) / ((l.length : ℕ) : ℚ)

/-- numpy/pandas `.round(0)`: round to nearest, ties to even. -/
def roundHalfToEven (q : ℚ) : Int :=
  let f := ⌊q⌋
  if q - (f : ℚ) < 1 / 2 then f
  else if (1 : ℚ) / 2 < q - (f : ℚ) then f + 1
  else if f % 2 = 0 then f else f + 1

/-- `df_failures.groupby('Part Number')['TimeToFailure'].mean().round(0)
.to_dict()` (`src/train_models.py` line 42), as an association list.  Keys
are modelled in first-appearance order; pandas sorts them, which leaves the
mapping extensionally identical.  Rows whose part number is null are not
modelled (pandas drops null group keys). -/
def train_and_save_model (rows : List TRow) : List (String × Int) :=
  (firstOccs ((ttfRows rows).map fun q => q.1)).map fun p =>
    (p, roundHalfToEven (ratMean (valuesFor (ttfRows rows) p)))

/-- Comparison definition following the specification's words for C8: the
per-row times-to-failure of part `p` — rows with both dates present,
`repair - production` in days, negatives discarded. -/
def partTtfsSpec (rows : List TRow) (p : String) : List Int :=
  rows.filterMap fun r =>
    match r.prod, r.repair with
    | some a, some b => if r.part = p ∧ 0 ≤ b - a then some (b - a) else none
    | _, _ => none

/-! ## Helper lemmas -/

theorem perm_insertIntoSorted {α : Type} (leb : α → α → Bool) (a : α) :
    ∀ l : List α, List.Perm (insertIntoSorted leb a l) (a :: l)
  | [] => by simp [insertIntoSorted]
  | b :: t => by
    simp only [insertIntoSorted]
    split
    · exact List.Perm.refl _
    · exact ((perm_insertIntoSorted leb a t).cons b).trans (List.Perm.swap a b t)

theorem perm_insertionSortBy {α : Type} (leb : α → α → Bool) :
    ∀ l : List α, List.Perm (insertionSortBy leb l) l
  | [] => List.Perm.refl _
  | a :: t =>
    (perm_insertIntoSorted leb a (insertionSortBy leb t)).trans
      ((perm_insertionSortBy leb t).cons a)

theorem mem_firstOccs {α : Type} [DecidableEq α] (a : α) :
    ∀ l : List α, a ∈ firstOccs l ↔ a ∈ l
  | [] => Iff.rfl
  | b :: t => by
    simp only [firstOccs, List.mem_cons, List.mem_filter, bne_iff_ne,
      mem_firstOccs a t]
    by_cases hab : a = b
    · simp [hab]
    · simp [hab]

theorem nodup_firstOccs {α : Type} [DecidableEq α] :
    ∀ l : List α, (firstOccs l).Nodup
  | [] => List.nodup_nil
  | b :: t => by
    simp only [firstOccs, List.nodup_cons]
    refine ⟨?_, (nodup_firstOccs t).filter _⟩
    intro hb
    simp [List.mem_filter] at hb

theorem sumCounts_groupCounts {α : Type} [DecidableEq α] (l : List α) :
    sumCounts (groupCounts l) = l.length := by
  have h1 : sumCounts (groupCounts l) = ((firstOccs l).map fun a => l.count a).sum := by
    unfold sumCounts groupCounts
    rw [List.map_map]
    rfl
  have h2 : (firstOccs l).toFinset = l.toFinset := by
    ext a
    simp [List.mem_toFinset, mem_firstOccs]
  rw [h1, ← List.sum_toFinset _ (nodup_firstOccs l), h2,
    List.sum_toFinset_count_eq_length]

theorem sumCounts_perm {α : Type} {l m : List (α × Nat)} (h : List.Perm l m) :
    sumCounts l = sumCounts m := by
  unfold sumCounts
  exact (h.map fun q => q.2).sum_eq

theorem vcCount_perm {α : Type} [DecidableEq α] {l m : List (α × Nat)}
    (h : List.Perm l m) (v : α) : vcCount l v = vcCount m v := by
  unfold vcCount
  exact (((h.filter fun q => q.1 == v)).map fun q => q.2).sum_eq

theorem filter_fst_map_keys {α β : Type} [DecidableEq α] (f : α → β) (v : α)
    (keys : List α) :
    keys.Nodup →
      ((keys.map fun a => (a, f a)).filter fun q => q.1 == v)
        = if v ∈ keys then [(v, f v)] else [] := by
  induction keys with
  | nil => intro _; rfl
  | cons k t ih =>
    intro hnd
    obtain ⟨hk, hnd'⟩ := List.nodup_cons.mp hnd
    by_cases hkv : k = v
    · subst hkv
      simp [List.filter_cons, ih hnd', hk]
    · have h1 : ¬v = k := fun h => hkv h.symm
      by_cases hvt : v ∈ t
      · simp [List.filter_cons, hkv, ih hnd', hvt, h1]
      · simp [List.filter_cons, hkv, ih hnd', hvt, h1]

theorem vcCount_groupCounts {α : Type} [DecidableEq α] (l : List α) (v : α) :
    vcCount (groupCounts l) v = l.count v := by
  unfold vcCount groupCounts
  rw [filter_fst_map_keys _ v (firstOccs l) (nodup_firstOccs l)]
  by_cases hv : v ∈ firstOccs l
  · simp [hv]
  · have hvl : v ∉ l := fun h => hv ((mem_firstOccs v l).mpr h)
    simp [hv, List.count_eq_zero.mpr hvl]

theorem half_lt_div_iff (c n : ℕ) (hcn : c ≤ n) (hc : 0 < c) :
    (1 : ℚ) / 2 < (c : ℚ) / (n : ℚ) ↔ n < 2 * c := by
  have hn : 0 < n := lt_of_lt_of_le hc hcn
  have hnq : (0 : ℚ) < (n : ℚ) := by exact_mod_cast hn
  rw [div_lt_div_iff₀ (by norm_num) hnq, one_mul, mul_comm (c : ℚ) 2]
  exact_mod_cast Iff.rfl

/-! ## Claim theorems -/

/-- C2: a textual column is replaced by its element-wise date parse exactly
when at least one value parses and the parsed values are strictly more than
half of the column's rows; exactly 50 % parseable keeps the column textual. -/
theorem normalize_column_threshold {α D : Type} (parse : α → Option D)
    (strip : α → α) (col : List α) :
    normalize_column parse strip col = NormalizedCol.dates (col.map parse)
    ↔ (0 < (col.map parse).countP (fun o => o.isSome)
        ∧ col.length < 2 * (col.map parse).countP (fun o => o.isSome)) := by
  have hle : (col.map parse).countP (fun o => o.isSome) ≤ col.length := by
    simpa using List.countP_le_length
      (p := fun o => o.isSome) (l := col.map parse)
  unfold normalize_column
  split
  case isTrue hcond =>
    obtain ⟨h1, h2⟩ := hcond
    have hpos : 0 < (col.map parse).countP (fun o => o.isSome) := by
      rw [List.countP_pos_iff]
      simpa [List.any_eq_true] using h1
    have hlen : col.length < 2 * (col.map parse).countP (fun o => o.isSome) :=
      (half_lt_div_iff _ _ hle hpos).mp h2
    exact ⟨fun _ => ⟨hpos, hlen⟩, fun _ => rfl⟩
  case isFalse hcond =>
    constructor
    · intro h
      exact absurd h (by simp)
    · intro ⟨hpos, hlen⟩
      exfalso
      apply hcond
      refine ⟨?_, ?_⟩
      · rw [List.any_eq_true]
        obtain ⟨o, ho, hos⟩ := List.countP_pos_iff.mp hpos
        exact ⟨o, ho, hos⟩
      · exact (half_lt_div_iff _ _ hle hpos).mpr hlen

/-- C2 witness: a 4-row column with 3 parseable dates (75 % > 50 %) is
replaced by the parsed dates. -/
theorem normalize_column_threshold_witness :
    normalize_column (fun s => if s = "d" then some 0 else none) id
        ["d", "d", "x", "d"]
      = NormalizedCol.dates [some 0, some 0, none, some 0] := by
  have h := (normalize_column_threshold
    (fun s : String => if s = "d" then some (0 : Nat) else none) id
    ["d", "d", "x", "d"]).mpr (by decide)
  simpa using h

/-- C1 (amended): for a selected source, once the key's cache entry exists a
call is a pure hit — the loader does not run, nothing is written, the cache
is unchanged — so the second of two calls with an unchanged source does no
parsing; for an uploaded source, however, the confirmation handler always
re-runs the loader and rewrites the entry, even when the content-hash key is
already cached. -/
theorem cache_select_hit_upload_always_rebuilds (c : List CKey) (n : String)
    (m : Nat) (c2 : List CKey) (n2 h2 : String) :
    CKey.select n m ∈ (handle_file_selection_or_upload c n m true).cache
    ∧ handle_file_selection_or_upload
        (handle_file_selection_or_upload c n m true).cache n m true
        = ⟨(handle_file_selection_or_upload c n m true).cache, false, false⟩
    ∧ (handle_save_file_confirmation c2 n2 h2 true).loaderInvoked = true
    ∧ (handle_save_file_confirmation c2 n2 h2 true).wrote = true := by
  by_cases h : CKey.select n m ∈ c
  · have e1 : handle_file_selection_or_upload c n m true = ⟨c, false, false⟩ := by
      simp [handle_file_selection_or_upload, h]
    refine ⟨?_, ?_, ?_, ?_⟩
    · rw [e1]; exact h
    · rw [e1]; simp [handle_file_selection_or_upload, h]
    · simp [handle_save_file_confirmation]
    · simp [handle_save_file_confirmation]
  · have e1 : handle_file_selection_or_upload c n m true
        = ⟨sweepSelect c n ++ [CKey.select n m], true, true⟩ := by
      simp [handle_file_selection_or_upload, h]
    have hmem : CKey.select n m ∈ sweepSelect c n ++ [CKey.select n m] := by
      simp
    refine ⟨?_, ?_, ?_, ?_⟩
    · rw [e1]; exact hmem
    · rw [e1]; simp [handle_file_selection_or_upload, hmem]
    · simp [handle_save_file_confirmation]
    · simp [handle_save_file_confirmation]

/-- C1 counterexample: an uploaded source whose derived key already has a
persisted entry still runs the raw loader and performs a storage write, so
the claim's "no loader call, no write on a hit" fails for uploads. -/
theorem upload_hit_still_rebuilds_cex :
    CKey.upload "f" "ab" ∈ [CKey.upload "f" "ab"]
    ∧ (handle_save_file_confirmation [CKey.upload "f" "ab"] "f" "ab" true).loaderInvoked
        = true
    ∧ (handle_save_file_confirmation [CKey.upload "f" "ab"] "f" "ab" true).wrote
        = true := by
  decide

/-- C5 (amended): on a cache miss for a selected source whose loader fails,
no new cache entry is created — but the stale-entry sweep has already run
(it precedes the loader), so previously persisted entries for that filename
are removed rather than left untouched. -/
theorem select_rebuild_failure_sweeps_stale (c : List CKey) (n : String)
    (m : Nat) (hmiss : CKey.select n m ∉ c) :
    handle_file_selection_or_upload c n m false = ⟨sweepSelect c n, true, false⟩
    ∧ ∀ m2, CKey.select n m2 ∉ sweepSelect c n := by
  constructor
  · simp [handle_file_selection_or_upload, hmiss]
  · intro m2 hmem
    simp [sweepSelect, List.mem_filter] at hmem

/-- C5 witness: concrete miss with failing loader — loader ran, nothing was
written, and no entry for the filename survives. -/
theorem select_rebuild_failure_sweeps_stale_witness :
    handle_file_selection_or_upload [CKey.select "f" 100] "f" 200 false
      = ⟨[], true, false⟩ := by
  have h := select_rebuild_failure_sweeps_stale [CKey.select "f" 100] "f" 200
    (by decide)
  rw [h.1]
  decide

/-- C5 counterexample: the previously persisted stale entry
`select_f_100` does NOT remain after a failed rebuild at mtime 200 — the
resulting cache is empty, refuting "any previously persisted stale entry for
that filename remains untouched". -/
theorem select_stale_removed_on_failure_cex :
    (handle_file_selection_or_upload [CKey.select "f" 100] "f" 200 false).wrote = false
    ∧ CKey.select "f" 100
        ∉ (handle_file_selection_or_upload [CKey.select "f" 100] "f" 200 false).cache := by
  decide

/-- C4 (amended): the derived month axis contains exactly the months whose
first calendar day lies between the minimum and maximum date; the minimum's
own month is included only when the minimum falls on the first of a month
(`freq='MS'` emits month-start dates only). -/
theorem monthRangeMS_months (dmin dmax : SDate) (mo : Nat)
    (hd1 : 1 ≤ dmin.day) (hd2 : 1 ≤ dmax.day) :
    mo ∈ monthRangeMS dmin dmax
    ↔ ((dmin.ym < mo ∨ (dmin.ym = mo ∧ dmin.day = 1)) ∧ mo ≤ dmax.ym) := by
  simp only [monthRangeMS, List.mem_filter, List.mem_range, sdateLeB,
    Bool.and_eq_true, Bool.or_eq_true, decide_eq_true_eq]
  omega

/-- C4 witness: with minimum date (month 3, day 15) and maximum
(month 5, day 10), month 4 is on the axis. -/
theorem monthRangeMS_months_witness :
    4 ∈ monthRangeMS ⟨3, 15⟩ ⟨5, 10⟩
      ↔ ((3 < 4 ∨ (3 = 4 ∧ (15 : Nat) = 1)) ∧ 4 ≤ 5) :=
  monthRangeMS_months ⟨3, 15⟩ ⟨5, 10⟩ 4 (by decide) (by decide)

/-- C4 counterexample: minimum date in month 3 (day 15), maximum in month 5
(day 10): the claimed axis is [3, 4, 5] but the computed axis is [4, 5] —
the minimum's own month is missing because day 15 is not the first of the
month. -/
theorem monthRangeMS_missing_min_month_cex :
    monthRangeMS ⟨3, 15⟩ ⟨5, 10⟩ = [4, 5]
    ∧ 3 ∉ monthRangeMS ⟨3, 15⟩ ⟨5, 10⟩
    ∧ sdateLeB ⟨3, 15⟩ ⟨5, 10⟩ = true := by
  decide

/-- C6: in the 2D-normal non-stacked branch over a date X axis, rows whose
month falls outside the `freq='MS'` month axis are dropped at plot time with
no further emptiness check: two rows inside a single month (days 5 and 20)
survive every filter, yet the returned outcome is a successful chart whose
table has zero rows — not the no-data outcome. -/
theorem twoD_nonstacked_date_zero_row_chart :
    generate_graph_2d_normal_date
        [(some ⟨3, 5⟩, Cell.s "a"), (some ⟨3, 20⟩, Cell.s "b")] none none false
      = Outcome2D.chartPlain [] []
    ∧ dropna2 [(some ⟨3, 5⟩, Cell.s "a"), (some ⟨3, 20⟩, Cell.s "b")] ≠ [] := by
  decide

/-- C7: with a located part instance and an average time-to-failure found in
the model, the outcome carries `remaining = avg_ttf - days_in_service` with
`days_in_service = now - production`, classified High Risk when negative,
Failure Expected Soon when between 0 and 30, and Low Risk above 30. -/
theorem run_prediction_risk_classification (rows : List PRow)
    (cv pv : String) (pdate : Int) (model : FailureModel) (now a : Int)
    (hfound : locate_instance rows cv pv pdate ≠ [])
    (havg : avgTtfOf model pv = some a) :
    run_prediction rows cv pv pdate model now
      = PredOutcome.prediction a (now - pdate) (a - (now - pdate))
          (classify_risk (a - (now - pdate)))
    ∧ (a - (now - pdate) < 0 → classify_risk (a - (now - pdate)) = Risk.high)
    ∧ (0 ≤ a - (now - pdate) ∧ a - (now - pdate) ≤ 30 →
        classify_risk (a - (now - pdate)) = Risk.soon)
    ∧ (30 < a - (now - pdate) → classify_risk (a - (now - pdate)) = Risk.low) := by
  refine ⟨?_, ?_, ?_, ?_⟩
  · simp [run_prediction, hfound, havg]
  · intro h
    simp [classify_risk, h]
  · intro ⟨hl, hr⟩
    unfold classify_risk
    rw [if_neg (not_lt.mpr hl), if_pos hr]
  · intro h
    unfold classify_risk
    rw [if_neg (by omega), if_neg (by omega)]

/-- C7 witness: avg 365 with 400 / 340 / 10 days in service give
High Risk / Failure Expected Soon / Low Risk with remaining −35 / 25 / 355. -/
theorem run_prediction_risk_classification_witness :
    run_prediction [⟨"c1", "p1", 0⟩] "c1" "p1" 0
        (FailureModel.dict [("p1", 365)]) 400
      = PredOutcome.prediction 365 400 (-35) Risk.high
    ∧ run_prediction [⟨"c1", "p1", 0⟩] "c1" "p1" 0
        (FailureModel.dict [("p1", 365)]) 340
      = PredOutcome.prediction 365 340 25 Risk.soon
    ∧ run_prediction [⟨"c1", "p1", 0⟩] "c1" "p1" 0
        (FailureModel.dict [("p1", 365)]) 10
      = PredOutcome.prediction 365 10 355 Risk.low := by
  refine ⟨?_, ?_, ?_⟩
  · have h := run_prediction_risk_classification [⟨"c1", "p1", 0⟩] "c1" "p1" 0
      (FailureModel.dict [("p1", 365)]) 400 365 (by decide) (by decide)
    rw [h.1]
    decide
  · have h := run_prediction_risk_classification [⟨"c1", "p1", 0⟩] "c1" "p1" 0
      (FailureModel.dict [("p1", 365)]) 340 365 (by decide) (by decide)
    rw [h.1]
    decide
  · have h := run_prediction_risk_classification [⟨"c1", "p1", 0⟩] "c1" "p1" 0
      (FailureModel.dict [("p1", 365)]) 10 365 (by decide) (by decide)
    rw [h.1]
    decide

/-- C10: a non-dict model artifact never yields the no-historical-data
outcome — every located instance gets a prediction with the default average
of 365 days — and the no-historical-data outcome occurs only for a dict
artifact lacking the selected part. -/
theorem run_prediction_nondict_uses_default (rows : List PRow) (cv pv : String)
    (pdate now : Int) :
    run_prediction rows cv pv pdate FailureModel.other now
        ≠ PredOutcome.noHistoricalData
    ∧ (locate_instance rows cv pv pdate ≠ [] →
        run_prediction rows cv pv pdate FailureModel.other now
          = PredOutcome.prediction 365 (now - pdate) (365 - (now - pdate))
              (classify_risk (365 - (now - pdate))))
    ∧ (∀ model, run_prediction rows cv pv pdate model now
          = PredOutcome.noHistoricalData →
        ∃ l, model = FailureModel.dict l ∧ dictGet l pv = none) := by
  refine ⟨?_, ?_, ?_⟩
  · unfold run_prediction avgTtfOf
    split <;> simp
  · intro h
    simp [run_prediction, h, avgTtfOf]
  · intro model h
    unfold run_prediction at h
    split at h
    · exact absurd h (by simp)
    · cases hm : avgTtfOf model pv with
      | none =>
        cases model with
        | dict l => exact ⟨l, rfl, by simpa [avgTtfOf] using hm⟩
        | other => simp [avgTtfOf] at hm
      | some a =>
        rw [hm] at h
        simp at h

/-- C10 witness: with a located instance and a non-dict artifact the outcome
is a prediction using the 365-day default, not no-historical-data. -/
theorem run_prediction_nondict_uses_default_witness :
    run_prediction [⟨"c1", "p1", 0⟩] "c1" "p1" 0 FailureModel.other 10
      = PredOutcome.prediction 365 10 355 Risk.low := by
  have h := run_prediction_nondict_uses_default [⟨"c1", "p1", 0⟩] "c1" "p1" 0 10
  rw [h.2.1 (by decide)]
  decide

theorem sumCounts_pandasValueCounts (l : List String) :
    sumCounts (pandasValueCounts l) = l.length := by
  unfold pandasValueCounts
  rw [sumCounts_perm (perm_insertionSortBy _ _)]
  exact sumCounts_groupCounts l

theorem sumCounts_oneDTable_none (col : List Cell) (xf : Option (List String))
    (sm : SortMode) :
    sumCounts (oneDTable col xf sm none) = (filteredStrs col xf).length := by
  unfold oneDTable
  cases sm with
  | noSort => exact sumCounts_pandasValueCounts _
  | asc =>
    rw [sumCounts_perm (perm_insertionSortBy _ _)]
    exact sumCounts_pandasValueCounts _
  | desc =>
    rw [sumCounts_perm (perm_insertionSortBy _ _)]
    exact sumCounts_pandasValueCounts _

/-- C3 (amended): in percentage count mode every reported Percentage equals
100 times the category's count divided by the sum of the counts remaining
after sort and top-N truncation (a zero total guarded to 0); only when no
top-N limit is requested is that total the number of rows surviving the
optional value filter, i.e. percentage-of-filtered-total. -/
theorem oneD_percentage_of_displayed_total (col : List Cell)
    (xf : Option (List String)) (sm : SortMode) (tn : Option Nat)
    (rows : List (String × Nat × ℚ))
    (h : generate_graph_1d col xf sm tn true = Outcome1D.chartPct rows) :
    (∀ r ∈ rows, r.2.2
        = if 0 < pctTotal rows
          then ((r.2.1 : ℕ) : ℚ) / ((pctTotal rows : ℕ) : ℚ) * 100
          else 0)
    ∧ (tn = none → pctTotal rows = (filteredStrs col xf).length) := by
  unfold generate_graph_1d at h
  split at h
  case isTrue => exact absurd h (by simp)
  case isFalse hne =>
    rw [if_pos rfl] at h
    injection h with h'
    subst h'
    have htot : pctTotal ((oneDTable col xf sm tn).map fun q =>
        (q.1, q.2,
          if 0 < sumCounts (oneDTable col xf sm tn)
          then ((q.2 : ℕ) : ℚ) / ((sumCounts (oneDTable col xf sm tn) : ℕ) : ℚ) * 100
          else 0)) = sumCounts (oneDTable col xf sm tn) := by
      unfold pctTotal
      rw [List.map_map]
      rfl
    constructor
    · intro r hr
      obtain ⟨q, hq, rfl⟩ := List.mem_map.mp hr
      rw [htot]
    · intro htn
      subst htn
      rw [htot]
      exact sumCounts_oneDTable_none col xf sm

/-- C3 witness: counts {A:2, B:1} with no top-N — the percentage total 3 is
exactly the filtered row count, and A gets 200/3 ≈ 66.7 %. -/
theorem oneD_percentage_of_displayed_total_witness :
    pctTotal [("A", 2, (200 : ℚ) / 3), ("B", 1, (100 : ℚ) / 3)]
      = (filteredStrs [Cell.s "A", Cell.s "A", Cell.s "B"] none).length := by
  have h := oneD_percentage_of_displayed_total [Cell.s "A", Cell.s "A", Cell.s "B"]
    none SortMode.noSort none [("A", 2, (200 : ℚ) / 3), ("B", 1, (100 : ℚ) / 3)]
    (by
      simp +decide [generate_graph_1d, oneDTable, pandasValueCounts, groupCounts,
        firstOccs, insertionSortBy, insertIntoSorted, filteredStrs, cellStr,
        sumCounts, List.count_cons, List.count_nil]
      norm_num)
  exact h.2 rfl

/-- C3 counterexample: rows [A,A,B,C,C,C] with sort=desc and top-N=2 in
percentage mode report C at 60 % and A at 40 % — percentages of the
truncated total 5, not of the filtered total 6 (which would give C 50 %). -/
theorem oneD_percentage_truncated_total_cex :
    generate_graph_1d
        [Cell.s "A", Cell.s "A", Cell.s "B", Cell.s "C", Cell.s "C", Cell.s "C"]
        none SortMode.desc (some 2) true
      = Outcome1D.chartPct [("C", 3, 60), ("A", 2, 40)]
    ∧ (60 : ℚ) ≠ 100 * 3 / 6 := by
  constructor
  · simp +decide [generate_graph_1d, oneDTable, pandasValueCounts, groupCounts,
      firstOccs, insertionSortBy, insertIntoSorted, filteredStrs, cellStr,
      sumCounts, List.count_cons, List.count_nil]
    norm_num
  · norm_num

theorem length_dropna2 (rows : List (Option SDate × Cell)) :
    (dropna2 rows).length = rows.countP fun r => r.1.isSome && !r.2.isNa := by
  induction rows with
  | nil => rfl
  | cons r t ih =>
    obtain ⟨od, c⟩ := r
    cases od with
    | none => simpa [dropna2, List.countP_cons] using ih
    | some d =>
      cases hc : c.isNa with
      | true => simpa [dropna2, List.countP_cons, hc] using ih
      | false => simpa [dropna2, List.countP_cons, hc] using ih

/-- C9: the 1D branch converts the axis column to strings without dropping
nulls — the counted rows always total the full column length, the "nan"
category's count equals the number of cells rendering as "nan" and is at
least the number of null cells — whereas the 2D-normal and 3D branches drop
exactly the rows with a null in an axis before any counting. -/
theorem oneD_counts_nulls_while_2d3d_drop (col : List Cell)
    (rows2 : List (Option SDate × Cell)) (rows3 : List (Cell × Cell × Cell)) :
    sumCounts (pandasValueCounts (filteredStrs col none)) = col.length
    ∧ vcCount (pandasValueCounts (filteredStrs col none)) "nan"
        = col.countP (fun c0 => cellStr c0 == "nan")
    ∧ col.countP (fun c0 => c0 == Cell.na)
        ≤ vcCount (pandasValueCounts (filteredStrs col none)) "nan"
    ∧ (dropna2 rows2).length = rows2.countP (fun r => r.1.isSome && !r.2.isNa)
    ∧ (dropna3 rows3).length
        = rows3.countP fun r => !r.1.isNa && !r.2.1.isNa && !r.2.2.isNa := by
  have hfs : filteredStrs col none = col.map cellStr := rfl
  have hvc : vcCount (pandasValueCounts (filteredStrs col none)) "nan"
      = col.countP fun c0 => cellStr c0 == "nan" := by
    unfold pandasValueCounts
    rw [vcCount_perm (perm_insertionSortBy _ _), vcCount_groupCounts, hfs,
      List.count_eq_countP, List.countP_map]
    rfl
  refine ⟨?_, hvc, ?_, length_dropna2 rows2, ?_⟩
  · rw [sumCounts_pandasValueCounts, hfs, List.length_map]
  · rw [hvc]
    apply List.countP_mono_left
    intro c0 _ hc0
    have : c0 = Cell.na := by simpa using hc0
    subst this
    rfl
  · unfold dropna3
    rw [← List.countP_eq_length_filter]

theorem valuesFor_ttfRows (p : String) (rows : List TRow) :
    valuesFor (ttfRows rows) p = partTtfsSpec rows p := by
  induction rows with
  | nil => rfl
  | cons r t ih =>
    obtain ⟨pt, pr, rp⟩ := r
    cases pr with
    | none =>
      simpa [ttfRows, valuesFor, partTtfsSpec, List.filter_cons, List.map_cons]
        using ih
    | some a =>
      cases rp with
      | none =>
        simpa [ttfRows, valuesFor, partTtfsSpec, List.filter_cons, List.map_cons]
          using ih
      | some b =>
        by_cases hab : a ≤ b
        · by_cases hpt : pt = p
          · simpa [ttfRows, valuesFor, partTtfsSpec, List.filter_cons,
              List.map_cons, List.filterMap_cons, sub_nonneg, hab, hpt] using ih
          · simpa [ttfRows, valuesFor, partTtfsSpec, List.filter_cons,
              List.map_cons, List.filterMap_cons, sub_nonneg, hab, hpt] using ih
        · simpa [ttfRows, valuesFor, partTtfsSpec, List.filter_cons,
            List.map_cons, List.filterMap_cons, sub_nonneg, hab] using ih

theorem dictGet_map_keys (f : String → Int) (q : String) (keys : List String) :
    dictGet (keys.map fun p => (p, f p)) q
      = if q ∈ keys then some (f q) else none := by
  induction keys with
  | nil => rfl
  | cons k t ih =>
    by_cases hkq : k = q
    · subst hkq
      simp [dictGet, List.find?_cons]
    · have h2 : ¬q = k := fun h => hkq h.symm
      simp only [dictGet, List.map_cons, List.find?_cons] at ih ⊢
      have hbeq : ((k, f k).1 == q) = false := by simpa using hkq
      rw [hbeq]
      simpa [List.mem_cons, h2] using ih

theorem valuesFor_ne_nil_iff (l : List (String × Int)) (p : String) :
    valuesFor l p ≠ [] ↔ p ∈ l.map fun q => q.1 := by
  simp only [valuesFor, ne_eq, List.map_eq_nil_iff, List.filter_eq_nil_iff,
    not_forall, List.mem_map, beq_iff_eq, not_not]
  constructor
  · rintro ⟨a, ha, he⟩
    exact ⟨a, ha, he⟩
  · rintro ⟨a, ha, he⟩
    exact ⟨a, ha, he⟩

/-- C8: the offline training pipeline — drop rows missing either date, take
`repair − production` in days, discard negatives, group by part, average and
round — serializes exactly the mapping sending each part with at least one
surviving row to the rounded mean of its surviving times-to-failure, and
containing no entry for any other part. -/
theorem train_model_per_part (rows : List TRow) (p : String) :
    dictGet (train_and_save_model rows) p
      = if partTtfsSpec rows p = [] then none
        else some (roundHalfToEven (ratMean (partTtfsSpec rows p))) := by
  unfold train_and_save_model
  rw [dictGet_map_keys]
  have hmem : (p ∈ firstOccs ((ttfRows rows).map fun q => q.1))
      ↔ partTtfsSpec rows p ≠ [] := by
    rw [mem_firstOccs, ← valuesFor_ne_nil_iff, valuesFor_ttfRows]
  by_cases h : partTtfsSpec rows p = []
  · have hnot : ¬p ∈ firstOccs ((ttfRows rows).map fun q => q.1) := by
      rw [hmem]
      exact fun hne => hne h
    rw [if_neg hnot, if_pos h]
  · have hyes : p ∈ firstOccs ((ttfRows rows).map fun q => q.1) := hmem.mpr h
    rw [if_pos hyes, if_neg h, valuesFor_ttfRows]
